import Mathlib

/-!
Shallow embedding of the CustomMainMenu plugin (src/unnamed/part_000):
configuration parsing, the menu background-music capture/restore state
machine hooked into the scene lifecycle, and the parallax scroll state.
-/

/-- A captured background-music snapshot: what AudioManager.saveBgm returns
for a playing track (name, volume, pitch, pan, playback position in seconds). -/
structure BgmSnapshot where
  name : String
  volume : Int
  pitch : Int
  pan : Int
  pos : ℚ
deriving DecidableEq, Repr

/-- A call issued to the audio device. The plugin issues AudioManager.stopBgm,
AudioManager.playBgm (a fresh object with pan 0), and AudioManager.replayBgm
of a saved snapshot (resuming at its saved position). -/
inductive AudioCall where
  | stop : AudioCall
  | play (name : String) (volume pitch pan : Int) : AudioCall
  | replay (s : BgmSnapshot) : AudioCall
deriving DecidableEq, Repr

/-- Modelled from the spec: the external audio device state, the single
currently playing track or nothing. The engine owns this; the plugin only
issues calls against it. -/
def AudioDevice : Type := Option BgmSnapshot

/-- Modelled from the spec: effect of one device call on the device state.
stop silences; play starts the named track from position 0; replay resumes
the snapshot at its saved position. -/
def applyCall (_d : Option BgmSnapshot) (c : AudioCall) : Option BgmSnapshot :=
  match c with
  | .stop => none
  | .play n v p pn => some ⟨n, v, p, pn, 0⟩
  | .replay s => some s

/-- Effect of a whole call trace on the device state, first call first. -/
def applyTrace (d : Option BgmSnapshot) (tr : List AudioCall) : Option BgmSnapshot :=
  tr.foldl applyCall d

/-- Reads a nonempty run of decimal digits as a natural number; none when
the list is empty or contains a non-digit character. -/
def parseDigits (cs : List Char) : Option Nat :=
  match cs with
  | [] => none
  | _ :: _ =>
    cs.foldl
      (fun acc c =>
        match acc with
        | none => none
        | some n => if c.isDigit then some (n * 10 + (c.toNat - 48)) else none)
      (some 0)

/-- Model of the JS builtin Number applied to a plugin-parameter string,
restricted to the integer-valued parameter strings the plugin manager
stores: none stands for NaN (non-numeric input), the empty string yields 0,
and an optional leading minus sign is honoured. -/
def jsNumber (s : String) : Option Int :=
  match s.data with
  | [] => some 0
  | '-' :: cs => (parseDigits cs).map (fun n => -(n : Int))
  | cs => (parseDigits cs).map (fun n => (n : Int))

/-- The JS or-else idiom v or-else d applied to a parsed number: NaN and 0
are falsy and fall back to the default, any other number is kept. -/
def jsOrDefault (v : Option Int) (d : Int) : Int :=
  match v with
  | none => d
  | some n => if n = 0 then d else n

/-- Source line: const parallaxHorizontalSpeed = Number(p) or-else 1. -/
def parseParallaxHorizontalSpeed (s : String) : Int := jsOrDefault (jsNumber s) 1

/-- Source line: const parallaxVerticalSpeed = Number(p) or-else 0. -/
def parseParallaxVerticalSpeed (s : String) : Int := jsOrDefault (jsNumber s) 0

/-- Source line: const musicVolume = Number(p) or-else 80. -/
def parseMusicVolume (s : String) : Int := jsOrDefault (jsNumber s) 80

/-- Source line: const musicPitch = Number(p) or-else 100. -/
def parseMusicPitch (s : String) : Int := jsOrDefault (jsNumber s) 100

/-- Source line: const menuMusic = p or-else the empty string (JS string
or-else: the empty string is falsy, every other string is kept). -/
def parseMenuMusic (s : String) : String := if s = "" then "" else s

/-- The plugin configuration after parsing, read-only for the session. -/
structure Config where
  backgroundImage : String
  parallaxHorizontalSpeed : Int
  parallaxVerticalSpeed : Int
  menuMusic : String
  musicVolume : Int
  musicPitch : Int
deriving DecidableEq, Repr

/-- The raw parameter strings as PluginManager.parameters returns them. -/
structure RawParams where
  backgroundImage : String
  parallaxHorizontalSpeed : String
  parallaxVerticalSpeed : String
  menuMusic : String
  musicVolume : String
  musicPitch : String
deriving DecidableEq, Repr

/-- The parameter-parsing block at the top of the plugin IIFE. -/
def parseParams (p : RawParams) : Config :=
  { backgroundImage := if p.backgroundImage = "" then "" else p.backgroundImage
    parallaxHorizontalSpeed := parseParallaxHorizontalSpeed p.parallaxHorizontalSpeed
    parallaxVerticalSpeed := parseParallaxVerticalSpeed p.parallaxVerticalSpeed
    menuMusic := parseMenuMusic p.menuMusic
    musicVolume := parseMusicVolume p.musicVolume
    musicPitch := parseMusicPitch p.musicPitch }

/-- The plugin module state: the captured map BGM (null initially, never
cleared by the code) and the menu-music-active flag. -/
structure AudioState where
  currentMapBgm : Option BgmSnapshot
  menuMusicActive : Bool
deriving DecidableEq, Repr

/-- Initial module state: _currentMapBgm = null, _menuMusicActive = false. -/
def initState : AudioState := ⟨none, false⟩

/-- Scene_Map.prototype.terminate override: when the next scene is a
Scene_MenuBase, capture the currently playing BGM into _currentMapBgm.
The capture argument is what AudioManager.saveBgm observes on the device
(absent when nothing is playing, per the device model). Issues no device
calls. -/
def sceneMapTerminate (nextIsMenuBase : Bool) (capture : Option BgmSnapshot)
    (st : AudioState) : AudioState × List AudioCall :=
  if nextIsMenuBase then ({ st with currentMapBgm := capture }, []) else (st, [])

/-- Scene_Menu.prototype.start override: when a menu track is configured and
menu music is not yet active, stop the device, play the configured track at
configured volume and pitch with pan 0, and set the active flag. -/
def sceneMenuStart (cfg : Config) (st : AudioState) : AudioState × List AudioCall :=
  if cfg.menuMusic ≠ "" ∧ st.menuMusicActive = false then
    ({ st with menuMusicActive := true },
      [.stop, .play cfg.menuMusic cfg.musicVolume cfg.musicPitch 0])
  else (st, [])

/-- Scene_MenuBase.prototype.terminate override: when menu music is active
and the next scene is Scene_Map, stop the device, replay the captured map
BGM when one is held, and clear the active flag. The captured snapshot
itself is never cleared. -/
def sceneMenuBaseTerminate (nextIsMap : Bool) (st : AudioState) :
    AudioState × List AudioCall :=
  if st.menuMusicActive = true ∧ nextIsMap then
    ({ st with menuMusicActive := false },
      .stop :: (match st.currentMapBgm with
                | some b => [.replay b]
                | none => []))
  else (st, [])

/-- A lifecycle event delivered to the plugin by the engine scene manager. -/
inductive Op where
  | mapTerminate (nextIsMenuBase : Bool) (capture : Option BgmSnapshot) : Op
  | menuStart : Op
  | menuBaseTerminate (nextIsMap : Bool) : Op
deriving DecidableEq, Repr

/-- Dispatch of one lifecycle event to the corresponding plugin hook. -/
def stepOp (cfg : Config) (st : AudioState) : Op → AudioState × List AudioCall
  | .mapTerminate nextIsMenuBase capture => sceneMapTerminate nextIsMenuBase capture st
  | .menuStart => sceneMenuStart cfg st
  | .menuBaseTerminate nextIsMap => sceneMenuBaseTerminate nextIsMap st

/-- Run a sequence of lifecycle events from a given state, accumulating the
device-call trace in execution order. -/
def runFrom (cfg : Config) (st : AudioState) : List Op → AudioState × List AudioCall
  | [] => (st, [])
  | op :: rest =>
    ((runFrom cfg (stepOp cfg st op).1 rest).1,
     (stepOp cfg st op).2 ++ (runFrom cfg (stepOp cfg st op).1 rest).2)

/-- Run a sequence of lifecycle events from the initial module state. -/
def runOps (cfg : Config) (ops : List Op) : AudioState × List AudioCall :=
  runFrom cfg initState ops

/-- Parallax origin of the menu background tiling sprite. -/
structure ParallaxOrigin where
  x : Int
  y : Int
deriving DecidableEq, Repr

/-- The parallax advance performed each frame by the Scene_MenuBase update
override while the tiling background sprite exists: origin.x gains the
configured horizontal speed, origin.y the vertical speed. -/
def parallaxTick (cfg : Config) (o : ParallaxOrigin) : ParallaxOrigin :=
  ⟨o.x + cfg.parallaxHorizontalSpeed, o.y + cfg.parallaxVerticalSpeed⟩

/-- An observable event of a menu session: the snapshot capture performed by
the map-terminate hook, a call issued to the audio device, or the moment
control returns to the outside world after the menu-terminate hook ran. -/
inductive SessionEvent where
  | capture (s : Option BgmSnapshot) : SessionEvent
  | call (c : AudioCall) : SessionEvent
  | returnedOutside : SessionEvent
deriving DecidableEq, Repr

/-- Observable events of one lifecycle event: the map-terminate hook performs
the snapshot capture exactly when the next scene is a menu scene; every
other hook is observed through the device calls it issues. -/
def stepEvents (cfg : Config) (st : AudioState) (op : Op) : List SessionEvent :=
  match op with
  | .mapTerminate nextIsMenuBase capture =>
    if nextIsMenuBase then [SessionEvent.capture capture] else []
  | _ => ((stepOp cfg st op).2).map SessionEvent.call

/-- Observable events of a sequence of lifecycle events, in execution order. -/
def runEvents (cfg : Config) (st : AudioState) : List Op → List SessionEvent
  | [] => []
  | op :: rest => stepEvents cfg st op ++ runEvents cfg (stepOp cfg st op).1 rest

/-- The observable events of a whole menu session: leaving the map into a
menu scene, the menu scene starting, any menu-to-menu navigation events,
the final menu-terminate with the map as next scene, and then the return of
control to the outside world. -/
def sessionEvents (cfg : Config) (capture : Option BgmSnapshot) (mids : List Op) :
    List SessionEvent :=
  runEvents cfg initState
    ([Op.mapTerminate true capture, Op.menuStart] ++ mids ++ [Op.menuBaseTerminate true])
    ++ [SessionEvent.returnedOutside]

/-- The device emission of the start-menu-track branch of the menu start
hook: stop, then play the configured track with pan 0. -/
def startCalls (cfg : Config) : List AudioCall :=
  [AudioCall.stop, AudioCall.play cfg.menuMusic cfg.musicVolume cfg.musicPitch 0]

/-- A configuration with menu track Theme1 at volume 80 and pitch 100. -/
def cfgTheme : Config := ⟨"", 1, 0, "Theme1", 80, 100⟩

/-- A configuration whose menu track identifier is empty: feature disabled. -/
def cfgNoMusic : Config := ⟨"Sky", 1, 0, "", 80, 100⟩

/-- A snapshot of the track Field playing at position 12.5 seconds. -/
def fieldSnap : BgmSnapshot := ⟨"Field", 90, 100, 0, (25 : ℚ)/2⟩

/-- The map-terminate hook issues no device calls and leaves the
menu-music-active flag unchanged. -/
theorem sceneMapTerminate_noCalls (b : Bool) (capture : Option BgmSnapshot)
    (st : AudioState) :
    (sceneMapTerminate b capture st).2 = [] ∧
    (sceneMapTerminate b capture st).1.menuMusicActive = st.menuMusicActive := by
  cases b <;> simp [sceneMapTerminate]

/-- While menu music is active, a menu start or a menu-to-menu terminate is
a complete no-op: the state is unchanged and no device call is issued. -/
theorem midStep_noop (cfg : Config) (st : AudioState)
    (hact : st.menuMusicActive = true) (op : Op)
    (hop : op = Op.menuStart ∨ op = Op.menuBaseTerminate false) :
    stepOp cfg st op = (st, []) := by
  rcases hop with h | h <;> subst h <;>
    simp [stepOp, sceneMenuStart, sceneMenuBaseTerminate, hact]

/-- While menu music is active, a run of menu starts and menu-to-menu
terminates produces no observable event and preserves the state. -/
theorem midOps_events_noop (cfg : Config) (mids : List Op)
    (hmids : ∀ op ∈ mids, op = Op.menuStart ∨ op = Op.menuBaseTerminate false)
    (st : AudioState) (hact : st.menuMusicActive = true) (l : List Op) :
    runEvents cfg st (mids ++ l) = runEvents cfg st l := by
  induction mids generalizing st with
  | nil => simp
  | cons op rest ih =>
    have hop := hmids op (by simp)
    have hstep := midStep_noop cfg st hact op hop
    have hEv : stepEvents cfg st op = [] := by
      rcases hop with h | h <;> subst h <;> simp [stepEvents, hstep]
    rw [List.cons_append, runEvents, hstep, hEv, List.nil_append]
    exact ih (fun o ho => hmids o (by simp [ho])) st hact

/-- Core invariant for the active flag: when a run ends with menu music
active, either it was already active and the run issued no call, or the
configured menu track is nonempty and the device trace ends exactly with
the stop-and-play emission of the start-menu-track branch. -/
theorem runFrom_active_trace (cfg : Config) (ops : List Op) :
    ∀ st : AudioState, (runFrom cfg st ops).1.menuMusicActive = true →
      (st.menuMusicActive = true ∧ (runFrom cfg st ops).2 = []) ∨
      (cfg.menuMusic ≠ "" ∧ ∃ t, (runFrom cfg st ops).2 = t ++ startCalls cfg) := by
  induction ops with
  | nil => intro st h; exact Or.inl ⟨h, rfl⟩
  | cons op rest ih =>
    intro st h
    rw [runFrom] at h ⊢
    rcases ih (stepOp cfg st op).1 h with ⟨hact1, ht2⟩ | ⟨hm, t, ht⟩
    · rw [ht2, List.append_nil]
      cases op with
      | mapTerminate b capture =>
        rcases sceneMapTerminate_noCalls b capture st with ⟨hc, hkeep⟩
        exact Or.inl ⟨by rw [← hkeep]; exact hact1, hc⟩
      | menuStart =>
        by_cases hg : cfg.menuMusic ≠ "" ∧ st.menuMusicActive = false
        · refine Or.inr ⟨hg.1, [], ?_⟩
          simp [stepOp, sceneMenuStart, hg, startCalls]
        · have hstep : stepOp cfg st Op.menuStart = (st, []) := by
            simp only [stepOp, sceneMenuStart, if_neg hg]
          rw [hstep] at hact1
          exact Or.inl ⟨hact1, by rw [hstep]⟩
      | menuBaseTerminate b =>
        by_cases hg : st.menuMusicActive = true ∧ b = true
        · exfalso
          have : (stepOp cfg st (Op.menuBaseTerminate b)).1.menuMusicActive = false := by
            rcases hg with ⟨h1, h2⟩
            subst h2
            simp [stepOp, sceneMenuBaseTerminate, h1]
          rw [this] at hact1
          exact Bool.false_ne_true hact1
        · have hnot : ¬(st.menuMusicActive = true ∧ b) := by
            intro hc
            exact hg ⟨hc.1, by simpa using hc.2⟩
          have hstep : stepOp cfg st (Op.menuBaseTerminate b) = (st, []) := by
            simp only [stepOp, sceneMenuBaseTerminate, if_neg hnot]
          rw [hstep] at hact1
          exact Or.inl ⟨hact1, by rw [hstep]⟩
    · exact Or.inr ⟨hm, (stepOp cfg st op).2 ++ t, by rw [ht, List.append_assoc]⟩

/-- C1: with menu track Theme1 at volume 80 and pitch 100 configured, and
the outside world playing Field at position 12.5 seconds, entering the menu
issues exactly stop then play of Theme1 at volume 80 pitch 100 pan 0, and
exiting back to the map issues exactly stop then replay of the saved Field
snapshot at 12.5 seconds, with no other audio call anywhere in the session. -/
theorem c1_session_device_sequence (v p pn : Int) :
    (runOps cfgTheme
      [Op.mapTerminate true (some ⟨"Field", v, p, pn, (25 : ℚ)/2⟩),
       Op.menuStart,
       Op.menuBaseTerminate true]).2 =
      [AudioCall.stop, AudioCall.play "Theme1" 80 100 0,
       AudioCall.stop, AudioCall.replay ⟨"Field", v, p, pn, (25 : ℚ)/2⟩] := by
  rfl

/-- C2 counterexample: running the menu-to-map termination from a state that
holds a saved snapshot and has menu music active leaves the saved snapshot
present, not absent, refuting the claim that it is cleared unconditionally. -/
theorem c2_counterexample :
    (sceneMenuBaseTerminate true ⟨some fieldSnap, true⟩).1.currentMapBgm
      = some fieldSnap ∧
    some fieldSnap ≠ (none : Option BgmSnapshot) :=
  ⟨rfl, Option.some_ne_none fieldSnap⟩

/-- C2 (amended): after the menu-to-map termination completes, the
menu-music-active flag is false regardless of the prior state, but the saved
snapshot is left exactly as it was: the code never clears _currentMapBgm. -/
theorem c2_exit_state (st : AudioState) :
    (sceneMenuBaseTerminate true st).1.menuMusicActive = false ∧
    (sceneMenuBaseTerminate true st).1.currentMapBgm = st.currentMapBgm := by
  rcases st with ⟨bgm, active⟩
  cases active <;> simp [sceneMenuBaseTerminate]

/-- C3: with a configured menu track and menu music not yet active, the menu
start hook issues the stop-and-play pair, and calling it again immediately
afterwards, with no intervening exit, issues nothing and leaves the state
untouched: the start emission happens exactly once. -/
theorem c3_start_once (cfg : Config) (st : AudioState)
    (hm : cfg.menuMusic ≠ "") (ha : st.menuMusicActive = false) :
    (sceneMenuStart cfg st).2 =
      [AudioCall.stop, AudioCall.play cfg.menuMusic cfg.musicVolume cfg.musicPitch 0] ∧
    sceneMenuStart cfg (sceneMenuStart cfg st).1 = ((sceneMenuStart cfg st).1, []) := by
  constructor
  · simp [sceneMenuStart, hm, ha]
  · simp [sceneMenuStart, hm, ha]

/-- C3 witness: the guard holds at the Theme1 configuration and the initial
state, and the conclusion evaluates there. -/
theorem c3_witness :
    cfgTheme.menuMusic ≠ "" ∧ initState.menuMusicActive = false ∧
    ((sceneMenuStart cfgTheme initState).2 =
      [AudioCall.stop, AudioCall.play cfgTheme.menuMusic cfgTheme.musicVolume
        cfgTheme.musicPitch 0] ∧
     sceneMenuStart cfgTheme (sceneMenuStart cfgTheme initState).1 =
      ((sceneMenuStart cfgTheme initState).1, [])) :=
  ⟨by decide, rfl, c3_start_once cfgTheme initState (by decide) rfl⟩

/-- C4: when nothing was playing on leaving the map (the capture is absent),
a full enter-then-exit menu session issues no replay call at all, and a
device that was silent at the start of the session is silent at its end. -/
theorem c4_silent_session (cfg : Config) :
    (∀ s : BgmSnapshot,
      AudioCall.replay s ∉
        (runOps cfg
          [Op.mapTerminate true none, Op.menuStart, Op.menuBaseTerminate true]).2) ∧
    applyTrace none
      (runOps cfg
        [Op.mapTerminate true none, Op.menuStart, Op.menuBaseTerminate true]).2
      = none := by
  by_cases h : cfg.menuMusic = "" <;>
    simp [runOps, runFrom, stepOp, sceneMapTerminate, sceneMenuStart,
      sceneMenuBaseTerminate, initState, applyTrace, applyCall, h]

/-- C5: in every reachable state of the controller, when the menu-music
flag is set, a menu track is configured and the accumulated device trace
ends exactly with the stop-and-play emission that started it: the track was
started and nothing, in particular no exit emission, has been issued since. -/
theorem c5_active_invariant (cfg : Config) (ops : List Op)
    (h : (runOps cfg ops).1.menuMusicActive = true) :
    cfg.menuMusic ≠ "" ∧ ∃ t, (runOps cfg ops).2 = t ++ startCalls cfg := by
  rcases runFrom_active_trace cfg ops initState h with ⟨hact, _⟩ | hr
  · exact absurd hact (by simp [initState])
  · exact hr

/-- C5 witness: after a single menu start under the Theme1 configuration the
flag is set, and the invariant evaluates there. -/
theorem c5_witness :
    (runOps cfgTheme [Op.menuStart]).1.menuMusicActive = true ∧
    (cfgTheme.menuMusic ≠ "" ∧
      ∃ t, (runOps cfgTheme [Op.menuStart]).2 = t ++ startCalls cfgTheme) :=
  ⟨rfl, c5_active_invariant cfgTheme [Op.menuStart] rfl⟩

/-- C6: iterating the parallax tick N times from the origin yields exactly
the configured velocities scaled by N in each coordinate. -/
theorem c6_parallax_linear (cfg : Config) (N : ℕ) :
    (parallaxTick cfg)^[N] ⟨0, 0⟩ =
      ⟨cfg.parallaxHorizontalSpeed * N, cfg.parallaxVerticalSpeed * N⟩ := by
  induction N with
  | zero => simp
  | succ n ih =>
    rw [Function.iterate_succ_apply', ih]
    simp only [parallaxTick, ParallaxOrigin.mk.injEq]
    constructor <;> push_cast <;> ring

/-- C7 counterexample: the value 0 is a valid numeric configuration for the
horizontal parallax speed, yet the parse yields the default 1 instead of 0,
so the claim that the default applies exactly when the value is unset or
invalid, and that any valid numeric configuration is used as given, fails. -/
theorem c7_counterexample :
    parseParallaxHorizontalSpeed "0" = 1 ∧ (1 : Int) ≠ 0 := by decide

/-- C7 (amended): non-numeric input such as abc yields the default 1, the
recovery is total and never fails, and any valid numeric configuration that
is nonzero is used as given; a configured 0 also falls back to the default. -/
theorem c7_parse_or_default :
    parseParallaxHorizontalSpeed "abc" = 1 ∧
    (∀ s : String, ∀ v : Int, jsNumber s = some v → v ≠ 0 →
      parseParallaxHorizontalSpeed s = v) := by
  refine ⟨by decide, fun s v hs hv => ?_⟩
  simp [parseParallaxHorizontalSpeed, jsOrDefault, hs, hv]

/-- C7 witness: the string -3 parses to the nonzero value -3 and is used as
given. -/
theorem c7_witness :
    jsNumber "-3" = some (-3) ∧ (-3 : Int) ≠ 0 ∧
    parseParallaxHorizontalSpeed "-3" = -3 :=
  ⟨by decide, by decide, c7_parse_or_default.2 "-3" (-3) (by decide) (by decide)⟩

/-- C8: with an empty menu track identifier configured, a full enter-then-
exit menu session issues no device call whatsoever: the call trace is empty. -/
theorem c8_empty_track_silent (cfg : Config) (capture : Option BgmSnapshot)
    (hm : cfg.menuMusic = "") :
    (runOps cfg
      [Op.mapTerminate true capture, Op.menuStart, Op.menuBaseTerminate true]).2
      = [] := by
  simp [runOps, runFrom, stepOp, sceneMapTerminate, sceneMenuStart,
    sceneMenuBaseTerminate, initState, hm]

/-- C8 witness: under the empty-track configuration, a session that captured
a playing Field snapshot still issues no device call. -/
theorem c8_witness :
    cfgNoMusic.menuMusic = "" ∧
    (runOps cfgNoMusic
      [Op.mapTerminate true (some fieldSnap), Op.menuStart,
       Op.menuBaseTerminate true]).2 = [] :=
  ⟨rfl, c8_empty_track_silent cfgNoMusic (some fieldSnap) rfl⟩

/-- C9: with a configured menu track, the observable events of any session,
whatever menu-to-menu navigation happens in between, are exactly: the
snapshot capture, then the stop-and-play that starts the menu track, then
the exit stop followed by the replay of the capture when one is present,
and only then the return of control to the outside world. The capture
strictly precedes the menu-track start, the stop-and-restore strictly
precedes the return outside, and no phase interleaves with another. -/
theorem c9_session_ordering (cfg : Config) (capture : Option BgmSnapshot)
    (mids : List Op) (hm : cfg.menuMusic ≠ "")
    (hmids : ∀ op ∈ mids, op = Op.menuStart ∨ op = Op.menuBaseTerminate false) :
    sessionEvents cfg capture mids =
      [SessionEvent.capture capture,
       SessionEvent.call AudioCall.stop,
       SessionEvent.call (AudioCall.play cfg.menuMusic cfg.musicVolume cfg.musicPitch 0),
       SessionEvent.call AudioCall.stop] ++
      (match capture with
       | some b => [SessionEvent.call (AudioCall.replay b)]
       | none => []) ++
      [SessionEvent.returnedOutside] := by
  have hmid := midOps_events_noop cfg mids hmids
    ⟨capture, true⟩ rfl [Op.menuBaseTerminate true]
  have h1 : stepOp cfg initState (Op.mapTerminate true capture) =
      (⟨capture, false⟩, []) := by
    simp [stepOp, sceneMapTerminate, initState]
  have h2 : stepOp cfg (⟨capture, false⟩ : AudioState) Op.menuStart =
      (⟨capture, true⟩, startCalls cfg) := by
    simp [stepOp, sceneMenuStart, hm, startCalls]
  have hE1 : stepEvents cfg initState (Op.mapTerminate true capture) =
      [SessionEvent.capture capture] := by
    simp [stepEvents]
  have hE2 : stepEvents cfg (⟨capture, false⟩ : AudioState) Op.menuStart =
      [SessionEvent.call AudioCall.stop,
       SessionEvent.call (AudioCall.play cfg.menuMusic cfg.musicVolume cfg.musicPitch 0)] := by
    simp [stepEvents, h2, startCalls]
  have h3 : stepOp cfg (⟨capture, true⟩ : AudioState) (Op.menuBaseTerminate true) =
      (⟨capture, false⟩,
        AudioCall.stop :: (match capture with
          | some b => [AudioCall.replay b]
          | none => [])) := by
    cases capture <;> simp [stepOp, sceneMenuBaseTerminate]
  have hE3 : stepEvents cfg (⟨capture, true⟩ : AudioState) (Op.menuBaseTerminate true) =
      SessionEvent.call AudioCall.stop ::
        (match capture with
         | some b => [SessionEvent.call (AudioCall.replay b)]
         | none => []) := by
    cases capture <;> simp [stepEvents, h3]
  rw [sessionEvents]
  rw [show [Op.mapTerminate true capture, Op.menuStart] ++ mids ++
        [Op.menuBaseTerminate true] =
      Op.mapTerminate true capture :: Op.menuStart ::
        (mids ++ [Op.menuBaseTerminate true]) by simp]
  rw [runEvents, runEvents]
  simp only [h1, hE1]
  simp only [h2, hE2]
  simp only [hmid]
  rw [runEvents, runEvents]
  simp only [h3, hE3]
  cases capture <;> simp

/-- C9 witness: a session under the Theme1 configuration with an absent
capture and one redundant mid-session menu start produces exactly the
ordered event sequence. -/
theorem c9_witness :
    cfgTheme.menuMusic ≠ "" ∧
    sessionEvents cfgTheme none [Op.menuStart] =
      [SessionEvent.capture none,
       SessionEvent.call AudioCall.stop,
       SessionEvent.call (AudioCall.play "Theme1" 80 100 0),
       SessionEvent.call AudioCall.stop,
       SessionEvent.returnedOutside] := by
  have h := c9_session_ordering cfgTheme none [Op.menuStart] (by decide)
    (fun op hop => by simp at hop; exact Or.inl hop)
  exact ⟨by decide, by simpa using h⟩

/-- C10: because the parse coerces every falsy value to the default, the
configured value 0 cannot take effect where the default is nonzero: a zero
horizontal speed becomes 1, a zero volume becomes 80, a zero pitch becomes
100; only the vertical speed, whose default is 0, stays zero, and in
general a parsed 0 always yields the default. -/
theorem c10_zero_coerced_to_default :
    parseParallaxHorizontalSpeed "0" = 1 ∧
    parseMusicVolume "0" = 80 ∧
    parseMusicPitch "0" = 100 ∧
    parseParallaxVerticalSpeed "0" = 0 ∧
    (∀ d : Int, jsOrDefault (some 0) d = d) := by
  refine ⟨by decide, by decide, by decide, by decide, fun d => rfl⟩
